import Mathlib

/-!
Verification model of the auto-job-scraper scan pipeline.

Shallow embedding of the core modules:
- `app/db/models.py`   (Company, JobListing, UserProfile)
- `app/core/analyzer.py` (get_client, analyze_job_match, analyze_navigation_step)
- `app/core/scraper.py`  (scrape_company)
- `app/core/scheduler.py` (run_daily_scan)

External effects (browser automation, the chat-completion HTTP call, the
relational store) are modelled as explicit inputs: the candidate anchors a
loaded page yields, a fetch function for detail pages, the outcome of one
model call, and the list of persisted `JobListing` rows threaded through the
scan.  Machine behaviour that the claims depend on is embedded faithfully:
Python substring tests (`"job" in href`), slicing (`[:200]`, `[:10000]`),
`dict.get` with a default (raising `AttributeError` on a non-dict), and the
`try/except` structure of the scraper and analyzer.
-/

namespace AutoJob

/-- Python `needle in haystack` on strings: substring containment. -/
def pyIn (needle haystack : String) : Bool :=
  decide (needle.toList <:+: haystack.toList)

/-- Boolean test that string `s` starts with `pre`, as Python `str.startswith`. -/
def pyStartsWith (s pre : String) : Bool :=
  decide (pre.toList <+: s.toList)

/-- JSON values, the possible results of `json.loads` on the model reply. -/
inductive Json where
  | null
  | bool (b : Bool)
  | num (n : Int)
  | str (s : String)
  | arr (xs : List Json)
  | obj (kvs : List (String × Json))

/-! ## Data model (`app/db/models.py`)

Timestamps are modelled as natural numbers.  The store-assigned columns
(`id` on every table, `JobListing.date_found`) are not part of the model;
the scanner never reads or writes them explicitly. -/

/-- Company row (`models.py` lines 12-22). -/
structure Company where
  id : Option Nat
  name : String
  career_page_url : String
  is_active : Bool := true
  last_scraped_at : Option Nat := none

/-- JobListing row (`models.py` lines 25-46).  The three AI-analysis columns
hold the raw values taken from the parsed model reply: SQLModel `table=True`
models perform no validation, so nothing constrains them to their annotated
Python types before they reach the store. -/
structure JobListing where
  title : String
  url : String
  company_id : Option Nat := none
  location : Option String := none
  description_text : Option String := none
  is_active : Bool := true
  match_score : Json
  match_reasoning : Json
  missing_skills : Json

/-- UserProfile row (`models.py` lines 49-56). -/
structure UserProfile where
  name : String := "Default User"
  resume_text : String
  preferences : String

/-! ## Analyzer (`app/core/analyzer.py`) -/

/-- OpenRouter client handle (the `AsyncOpenAI` object). -/
structure Client where
  base_url : String
  api_key : String

/-- Constant `OPENROUTER_BASE_URL` (`analyzer.py` line 14). -/
def OPENROUTER_BASE_URL : String := "https://openrouter.ai/api/v1"

/-- Function `get_client` (`analyzer.py` lines 20-32): returns the cached
client if one exists, otherwise constructs one when the API key setting is
truthy (set and non-empty), otherwise returns `None`. -/
def get_client (cached : Option Client) (apiKey : Option String) : Option Client :=
  match cached with
  | some c => some c
  | none =>
    match apiKey with
    | some k => if k.isEmpty then none else some { base_url := OPENROUTER_BASE_URL, api_key := k }
    | none => none

/-- Outcome of one `chat.completions.create` call followed by `json.loads`
on its message content: `raises e` models an exception raised by the call
itself (network, API error, missing content), `returns (.error e)` models
content on which `json.loads` raises, and `returns (.ok j)` models content
parsed to the JSON value `j`. -/
inductive ModelOutcome where
  | raises (msg : String)
  | returns (parsed : Except String Json)

/-- The part of the `analyze_job_match` prompt f-string before the job
text slice (`analyzer.py` lines 50-57). -/
def jobMatchPromptIntro (user_profile : UserProfile) : String :=
  "You are an expert technical recruiter. Analyze the following candidate profile and job description.\n\nCANDIDATE PROFILE:\nName: "
    ++ user_profile.name
    ++ "\nResume/Skills: " ++ user_profile.resume_text
    ++ "\nPreferences: " ++ user_profile.preferences
    ++ "\n\nJOB DESCRIPTION:\n"

/-- The part of the `analyze_job_match` prompt f-string after the job text
slice (`analyzer.py` lines 60-70). -/
def jobMatchPromptOutro : String :=
  "\n\nEvaluate the match score (0-100) based on:\n1. Technical skills alignment.\n2. Years of experience alignment.\n3. Location/Remote preferences (if specified in job).\n\nRespond ONLY with valid JSON in this exact format:\n\x7b\n    \"match_score\": <int>,\n    \"reasoning\": \"<short explanation>\",\n    \"missing_skills\": [\"<skill1>\", \"<skill2>\"]\n\x7d"

/-- The user prompt built by `analyze_job_match` (`analyzer.py` lines 50-70):
the f-string interpolates the profile fields and the `job_text[:10000]`
slice — only that slice of the job text enters the prompt. -/
def jobMatchPrompt (job_text : String) (user_profile : UserProfile) : String :=
  jobMatchPromptIntro user_profile ++ job_text.take 10000 ++ jobMatchPromptOutro

/-- Function `analyze_job_match` (`analyzer.py` lines 35-86).  With no client
it returns the API-key-missing dict without calling the model; otherwise it
sends the prompt and returns `json.loads` of the reply verbatim, or, when the
call or the parse raises, the `Error:` fallback dict. -/
def analyze_job_match (client : Option Client) (callModel : String → ModelOutcome)
    (job_text : String) (user_profile : UserProfile) : Json :=
  match client with
  | none =>
    .obj [("match_score", .num 0), ("reasoning", .str "API Key missing"),
          ("missing_skills", .arr [])]
  | some _ =>
    match callModel (jobMatchPrompt job_text user_profile) with
    | .raises e =>
      .obj [("match_score", .num 0), ("reasoning", .str ("Error: " ++ e)),
            ("missing_skills", .arr [])]
    | .returns (.error e) =>
      .obj [("match_score", .num 0), ("reasoning", .str ("Error: " ++ e)),
            ("missing_skills", .arr [])]
    | .returns (.ok result) => result

/-- The user prompt built by `analyze_navigation_step` (`analyzer.py` lines
104-116).  Only `page_state[:15000]` enters the prompt. -/
def navStepPrompt (page_state : String) (user_preferences : String) : String :=
  "You are a browser automation agent. Your goal is to filter a career page for: "
    ++ user_preferences
    ++ ".\n\nPAGE STATE (Accessibility Snapshot / Semantic HTML):\n" ++ page_state.take 15000
    ++ "\n\nDecide the NEXT ONE step.\nRespond ONLY with valid JSON:\n\x7b\n    \"action\": \"click\" | \"type\" | \"stop\",\n    \"selector\": \"<css_selector>\",\n    \"value\": \"<text_to_type_if_type_action>\"\n\x7d\nIf you see a list of jobs already filtered, return action \"stop\"."

/-- Function `analyze_navigation_step` (`analyzer.py` lines 89-131). -/
def analyze_navigation_step (client : Option Client) (callModel : String → ModelOutcome)
    (page_state : String) (user_preferences : String) : Json :=
  match client with
  | none => .obj [("action", .str "stop"), ("selector", .null), ("value", .null)]
  | some _ =>
    match callModel (navStepPrompt page_state user_preferences) with
    | .raises _ => .obj [("action", .str "stop")]
    | .returns (.error _) => .obj [("action", .str "stop")]
    | .returns (.ok result) => result

/-! ## Scraper (`app/core/scraper.py`) -/

/-- A candidate anchor `{text, href}` collected by the in-page script
(`scraper.py` lines 41-47). -/
structure LinkCandidate where
  text : String
  href : String

/-- The in-page extraction script (`scraper.py` lines 41-47): map every
anchor to `{text, href}` and keep those with `href.length > 10`. -/
def extractLinks (anchors : List LinkCandidate) : List LinkCandidate :=
  anchors.filter (fun l => decide (10 < l.href.length))

/-- The per-link keep heuristic (`scraper.py` line 62):
`"job" in href or "career" in href or len(text) > 10`. -/
def heuristicKeep (link : LinkCandidate) : Bool :=
  pyIn "job" link.href || pyIn "career" link.href || decide (10 < link.text.length)

/-- External-system inputs of one company scan.  `launch` is the outcome of
the browser/context/page setup (`scraper.py` lines 25-28, before the `try`);
`pageLoad` is the outcome of `page.goto` + `wait_for_load_state` +
`page.evaluate`, yielding all anchors of the career page; `fetchPage href` is
the outcome of `job_page.goto(href)` + body-text extraction on the detail
page opened for one candidate; `callModel` maps the prompt of one
chat-completion call to its outcome; `profileRow` is
`session.exec(select(UserProfile)).first()`; `now` is the clock value
`datetime.now()` reads at the end of the scan. -/
structure ScrapeEnv where
  launch : Except String Unit
  pageLoad : Except String (List LinkCandidate)
  fetchPage : String → Except String String
  callModel : String → ModelOutcome
  client : Option Client
  profileRow : Option UserProfile
  now : Nat

/-- The fallback profile `UserProfile(resume_text="", preferences="")`
constructed when no profile row exists (`scraper.py` line 55). -/
def defaultProfile : UserProfile :=
  { resume_text := "", preferences := "" }

/-- Attempt of the fetch-analyze-construct body of the per-link `try`
(`scraper.py` lines 74-93), independent of the session state.  Returns the
`JobListing` to stage (or `none` when an exception was caught) together with
the number of detail pages the step left open: when `job_page.goto` or the
body-text evaluation raises, the `except` at line 95 is reached before
`job_page.close()` ever runs, so the freshly opened page stays open.  When
the parsed model reply is not a dict, `match_result.get` raises
`AttributeError` after the page was already closed. -/
def attemptLink (env : ScrapeEnv) (profile : UserProfile) (cid : Option Nat)
    (link : LinkCandidate) : Option JobListing × Nat :=
  match env.fetchPage link.href with
  | .error _ => (none, 1)
  | .ok description_text =>
    match analyze_job_match env.client env.callModel description_text profile with
    | .obj kvs =>
      (some { title := link.text.take 200
            , url := link.href
            , company_id := cid
            , description_text := some description_text
            , match_score := (kvs.lookup "match_score").getD (.num 0)
            , match_reasoning := (kvs.lookup "reasoning").getD (.str "")
            , missing_skills := (kvs.lookup "missing_skills").getD (.arr []) }, 0)
    | _ => (none, 0)

/-- One iteration of the candidate loop (`scraper.py` lines 59-96) acting on
the staged row set `db`: candidates failing the heuristic are ignored; a
candidate whose href exactly matches an existing `JobListing.url` is skipped
(the dedup query at lines 65-69 sees earlier staged rows through autoflush);
otherwise the detail page is fetched and analyzed and the built row staged. -/
def processLink (env : ScrapeEnv) (profile : UserProfile) (cid : Option Nat)
    (db : List JobListing) (link : LinkCandidate) : List JobListing × Nat :=
  if heuristicKeep link then
    if db.any (fun j => j.url == link.href) then (db, 0)
    else
      match attemptLink env profile cid link with
      | (some row, k) => (db ++ [row], k)
      | (none, k) => (db, k)
  else (db, 0)

/-- The candidate loop over the extracted links, threading the staged row
set and accumulating the count of leaked detail pages. -/
def scanLinks (env : ScrapeEnv) (profile : UserProfile) (cid : Option Nat)
    (db : List JobListing) : List LinkCandidate → List JobListing × Nat
  | [] => (db, 0)
  | link :: rest =>
    let r := processLink env profile cid db link
    let s := scanLinks env profile cid r.1 rest
    (s.1, r.2 + s.2)

/-- Result of `scrape_company`: the persisted `JobListing` rows, the company
row as left by the scan, the number of detail pages the per-link steps left
open, and the exception the call propagated to its caller (if any). -/
structure ScrapeOutcome where
  db : List JobListing
  company : Company
  leakedPages : Nat
  raised : Option String

/-- Function `scrape_company` (`scraper.py` lines 16-111).  A failure of the
browser/context/page setup happens before the `try` at line 30 and therefore
propagates to the caller; any failure of the initial navigation or
extraction is caught by the outer `except` at line 108 (logged, nothing
persisted, nothing propagated); otherwise the candidate loop runs, the
staged rows are committed, and `company.last_scraped_at` is set to the
current time. -/
def scrape_company (env : ScrapeEnv) (company : Company) (db : List JobListing) :
    ScrapeOutcome :=
  match env.launch with
  | .error e => { db := db, company := company, leakedPages := 0, raised := some e }
  | .ok _ =>
    match env.pageLoad with
    | .error _ => { db := db, company := company, leakedPages := 0, raised := none }
    | .ok anchors =>
      let job_links := extractLinks anchors
      let profile := env.profileRow.getD defaultProfile
      let r := scanLinks env profile company.id db job_links
      { db := r.1
      , company := { company with last_scraped_at := some env.now }
      , leakedPages := r.2
      , raised := none }

/-! ## Scheduler (`app/core/scheduler.py`) -/

/-- Result of `run_daily_scan`: the companies for which `scrape_company` was
invoked, the final row set, and the exception the loop propagated (if any). -/
structure ScanRun where
  invoked : List Company
  db : List JobListing
  raised : Option String

/-- The sequential company loop of `run_daily_scan` (`scheduler.py` lines
29-32).  The loop body `await scrape_company(company)` stands bare — there
is no `try/except` around it — so an exception propagating out of
`scrape_company` propagates out of the loop and the remaining companies are
not visited. -/
def scanLoop (envOf : Company → ScrapeEnv) (db : List JobListing) :
    List Company → ScanRun
  | [] => { invoked := [], db := db, raised := none }
  | c :: rest =>
    let out := scrape_company (envOf c) c db
    match out.raised with
    | some e => { invoked := [c], db := out.db, raised := some e }
    | none =>
      let r := scanLoop envOf out.db rest
      { invoked := c :: r.invoked, db := r.db, raised := r.raised }

/-- Function `run_daily_scan` (`scheduler.py` lines 17-33): select the
companies with `is_active == True` and scan them sequentially. -/
def run_daily_scan (envOf : Company → ScrapeEnv) (db : List JobListing)
    (companies : List Company) : ScanRun :=
  scanLoop envOf db (companies.filter (fun c => c.is_active))

/-! ## Auxiliary predicates for the statements -/

/-- A candidate on which a (re-)run of the loop body cannot stage a row:
it fails the heuristic, or a staged/persisted row already carries its href,
or its fetch-analyze attempt yields no row. -/
def linkSettled (env : ScrapeEnv) (p : UserProfile) (cid : Option Nat)
    (db : List JobListing) (link : LinkCandidate) : Prop :=
  heuristicKeep link = false ∨ (∃ j ∈ db, j.url = link.href) ∨
    (attemptLink env p cid link).1 = none

/-- Stated from the claim and the spec's failure policy: the analyzer result
is a dict carrying `match_score` 0, an empty `missing_skills` list, and a
`reasoning` string that starts with `Error:`. -/
def analyzerFallbackShape (j : Json) : Bool :=
  match j with
  | .obj kvs =>
    (match kvs.lookup "match_score" with
     | some (.num 0) => true
     | _ => false) &&
    (match kvs.lookup "missing_skills" with
     | some (.arr []) => true
     | _ => false) &&
    (match kvs.lookup "reasoning" with
     | some (.str r) => pyStartsWith r "Error:"
     | _ => false)
  | _ => false

/-! ## Concrete instances used by witnesses and counterexamples -/

/-- A configured OpenRouter client handle. -/
def demoClient : Client :=
  { base_url := OPENROUTER_BASE_URL, api_key := "k" }

/-- A monitored company. -/
def demoCompany : Company :=
  { id := some 1, name := "Acme", career_page_url := "https://acme.example/careers",
    is_active := true, last_scraped_at := some 3 }

/-- An inactive company: `run_daily_scan` must not scan it. -/
def inactiveCo : Company :=
  { id := some 2, name := "Mothballed", career_page_url := "https://moth.example/jobs",
    is_active := false, last_scraped_at := none }

/-- A second active company. -/
def betaCo : Company :=
  { id := some 3, name := "Beta", career_page_url := "https://beta.example/careers",
    is_active := true, last_scraped_at := none }

/-- Candidate links of the fault-isolation scenario. -/
def jobLink1 : LinkCandidate :=
  { text := "Senior Engineer role", href := "https://x/job/1" }

/-- Candidate link whose detail fetch will fail. -/
def jobLink2 : LinkCandidate :=
  { text := "Staff Engineer role", href := "https://x/job/2" }

/-- Third candidate link of the fault-isolation scenario. -/
def jobLink3 : LinkCandidate :=
  { text := "Platform Engineer role", href := "https://x/job/3" }

/-- Environment where exactly the second candidate's detail fetch raises. -/
def faultEnv : ScrapeEnv :=
  { launch := .ok ()
  , pageLoad := .ok [jobLink1, jobLink2, jobLink3]
  , fetchPage := fun href =>
      if href == "https://x/job/2" then .error "net::ERR_CONNECTION_REFUSED"
      else .ok ("body of " ++ href)
  , callModel := fun _ => .raises "unused"
  , client := none
  , profileRow := none
  , now := 9 }

/-- A model reply whose content parses to a score above the documented
0-100 range. -/
def overScoreReply : Json :=
  Json.obj [("match_score", .num 150), ("reasoning", .str "great fit"),
    ("missing_skills", .arr [])]

/-- Environment in which the model reply carries `match_score` 150. -/
def overScoreEnv : ScrapeEnv :=
  { launch := .ok ()
  , pageLoad := .ok [jobLink1]
  , fetchPage := fun _ => .ok "job description body"
  , callModel := fun _ => .returns (.ok overScoreReply)
  , client := some demoClient
  , profileRow := none
  , now := 9 }

/-- Candidate whose detail navigation will raise. -/
def leakLink : LinkCandidate :=
  { text := "Openings", href := "https://x/job/404" }

/-- Environment whose only candidate's detail navigation raises after the
detail page was opened. -/
def leakEnv : ScrapeEnv :=
  { launch := .ok ()
  , pageLoad := .ok [leakLink]
  , fetchPage := fun _ => .error "net::ERR_NAME_NOT_RESOLVED"
  , callModel := fun _ => .raises "unused"
  , client := none
  , profileRow := none
  , now := 9 }

/-- Candidate link of the truncation scenario. -/
def truncLink : LinkCandidate :=
  { text := "Senior Platform Engineer (Remote, EMEA)", href := "https://x/careers/42" }

/-- Environment of the truncation scenario. -/
def truncEnv : ScrapeEnv :=
  { launch := .ok ()
  , pageLoad := .ok [truncLink]
  , fetchPage := fun _ => .ok "full body text"
  , callModel := fun _ => .raises "unused"
  , client := none
  , profileRow := none
  , now := 9 }

/-- The row the truncation scenario stages. -/
def truncRow : JobListing :=
  { title := truncLink.text.take 200
  , url := truncLink.href
  , company_id := some 1
  , description_text := some "full body text"
  , match_score := .num 0
  , match_reasoning := .str "API Key missing"
  , missing_skills := .arr [] }

/-- A previously persisted listing. -/
def existingRow : JobListing :=
  { title := "Senior Engineer role"
  , url := "https://x/job/1"
  , company_id := some 1
  , description_text := some "old body"
  , match_score := .num 77
  , match_reasoning := .str "solid"
  , missing_skills := .arr [.str "Go"] }

/-- Environment of the re-scan scenario: the page again yields
`https://x/job/1`, which `existingRow` already carries. -/
def rescanEnv : ScrapeEnv :=
  { launch := .ok ()
  , pageLoad := .ok [jobLink1]
  , fetchPage := fun href => .ok ("body of " ++ href)
  , callModel := fun _ => .raises "unused"
  , client := none
  , profileRow := none
  , now := 9 }

/-- Environment of the idempotence scenario: the page yields the same
candidate twice plus a third one, and every fetch succeeds. -/
def idemEnv : ScrapeEnv :=
  { launch := .ok ()
  , pageLoad := .ok [jobLink1, jobLink1, jobLink3]
  , fetchPage := fun href => .ok ("body of " ++ href)
  , callModel := fun _ => .raises "unused"
  , client := none
  , profileRow := none
  , now := 9 }

/-- Per-company environments where the first company's browser launch
raises and every other company would scan cleanly. -/
def crashEnvOf : Company → ScrapeEnv := fun c =>
  if c.name == "Acme" then
    { launch := .error "BrowserType.launch: executable not found"
    , pageLoad := .error "unreachable"
    , fetchPage := fun _ => .error "unreachable"
    , callModel := fun _ => .raises "unused"
    , client := none
    , profileRow := none
    , now := 9 }
  else
    { launch := .ok ()
    , pageLoad := .ok [jobLink1]
    , fetchPage := fun href => .ok ("body of " ++ href)
    , callModel := fun _ => .raises "unused"
    , client := none
    , profileRow := none
    , now := 9 }

/-- Per-company environments where every launch succeeds but every page
navigation times out inside the scan. -/
def okEnvOf : Company → ScrapeEnv := fun _ =>
  { launch := .ok ()
  , pageLoad := .error "Timeout 30000ms exceeded"
  , fetchPage := fun _ => .error "unreachable"
  , callModel := fun _ => .raises "unused"
  , client := none
  , profileRow := none
  , now := 9 }

/-! ## Helper lemmas about the candidate loop -/

theorem pyIn_iff (needle haystack : String) :
    pyIn needle haystack = true ↔ needle.toList <:+: haystack.toList := by
  simp [pyIn]

theorem attemptLink_url (env : ScrapeEnv) (p : UserProfile) (cid : Option Nat)
    (link : LinkCandidate) (row : JobListing)
    (h : (attemptLink env p cid link).1 = some row) : row.url = link.href := by
  unfold attemptLink at h
  cases hf : env.fetchPage link.href with
  | error e => rw [hf] at h; simp at h
  | ok d =>
    rw [hf] at h
    dsimp only at h
    cases hA : analyze_job_match env.client env.callModel d p <;> rw [hA] at h <;>
      simp at h
    rw [← h]

theorem processLink_cases (env : ScrapeEnv) (p : UserProfile) (cid : Option Nat)
    (db : List JobListing) (link : LinkCandidate) :
    (processLink env p cid db link).1 = db ∨
      ∃ row, (attemptLink env p cid link).1 = some row ∧
        (processLink env p cid db link).1 = db ++ [row] ∧
        (∀ j ∈ db, j.url ≠ link.href) ∧ row.url = link.href := by
  unfold processLink
  by_cases hk : heuristicKeep link
  · simp only [hk, if_true]
    by_cases hd : db.any (fun j => j.url == link.href)
    · simp [hd]
    · simp only [hd, Bool.false_eq_true, if_false]
      rcases ha : attemptLink env p cid link with ⟨o, k⟩
      cases o with
      | none => simp
      | some row =>
        right
        refine ⟨row, rfl, by simp, ?_,
          attemptLink_url env p cid link row (by rw [ha])⟩
        intro j hj hurl
        exact hd (List.any_eq_true.mpr ⟨j, hj, beq_iff_eq.mpr hurl⟩)
  · simp [hk]

theorem processLink_db_sub (env : ScrapeEnv) (p : UserProfile) (cid : Option Nat)
    (db : List JobListing) (link : LinkCandidate) :
    db <+: (processLink env p cid db link).1 := by
  rcases processLink_cases env p cid db link with h | ⟨row, _, h, _, _⟩
  · rw [h]
  · rw [h]; exact List.prefix_append db [row]

theorem scanLinks_cons (env : ScrapeEnv) (p : UserProfile) (cid : Option Nat)
    (db : List JobListing) (link : LinkCandidate) (rest : List LinkCandidate) :
    (scanLinks env p cid db (link :: rest)).1 =
      (scanLinks env p cid (processLink env p cid db link).1 rest).1 := rfl

theorem scanLinks_db_grows (env : ScrapeEnv) (p : UserProfile) (cid : Option Nat)
    (links : List LinkCandidate) (db : List JobListing) :
    db <+: (scanLinks env p cid db links).1 := by
  induction links generalizing db with
  | nil => exact List.prefix_refl db
  | cons link rest ih =>
    rw [scanLinks_cons]
    exact (processLink_db_sub env p cid db link).trans (ih _)

theorem scanLinks_mem_preserve (env : ScrapeEnv) (p : UserProfile) (cid : Option Nat)
    (links : List LinkCandidate) (db : List JobListing) (j : JobListing)
    (h : j ∈ db) : j ∈ (scanLinks env p cid db links).1 :=
  (scanLinks_db_grows env p cid links db).subset h

theorem scanLinks_new_urls (env : ScrapeEnv) (p : UserProfile) (cid : Option Nat)
    (links : List LinkCandidate) (db : List JobListing) (r : JobListing)
    (hr : r ∈ (scanLinks env p cid db links).1) :
    r ∈ db ∨ ∀ j ∈ db, j.url ≠ r.url := by
  induction links generalizing db with
  | nil => exact Or.inl hr
  | cons link rest ih =>
    rw [scanLinks_cons] at hr
    rcases ih _ hr with hmem | hnew
    · rcases processLink_cases env p cid db link with h | ⟨row, _, h, hno, hurl⟩
      · rw [h] at hmem; exact Or.inl hmem
      · rw [h] at hmem
        rcases List.mem_append.mp hmem with hdb | hrow
        · exact Or.inl hdb
        · right
          intro j hj
          rw [List.mem_singleton.mp hrow, hurl]
          exact hno j hj
    · right
      intro j hj
      exact hnew j ((processLink_db_sub env p cid db link).subset hj)

theorem linkSettled_mono (env : ScrapeEnv) (p : UserProfile) (cid : Option Nat)
    (db db' : List JobListing) (link : LinkCandidate) (hsub : db ⊆ db')
    (h : linkSettled env p cid db link) : linkSettled env p cid db' link := by
  rcases h with h | ⟨j, hj, hurl⟩ | h
  · exact Or.inl h
  · exact Or.inr (Or.inl ⟨j, hsub hj, hurl⟩)
  · exact Or.inr (Or.inr h)

theorem processLink_settled (env : ScrapeEnv) (p : UserProfile) (cid : Option Nat)
    (db : List JobListing) (link : LinkCandidate)
    (h : linkSettled env p cid db link) : (processLink env p cid db link).1 = db := by
  rcases h with h | ⟨j, hj, hurl⟩ | h
  · simp [processLink, h]
  · have : db.any (fun j => j.url == link.href) = true :=
      List.any_eq_true.mpr ⟨j, hj, beq_iff_eq.mpr hurl⟩
    simp [processLink, this]
  · unfold processLink
    by_cases hk : heuristicKeep link
    · simp only [hk, if_true]
      by_cases hd : db.any (fun j => j.url == link.href)
      · simp [hd]
      · simp only [hd, Bool.false_eq_true, if_false]
        rcases ha : attemptLink env p cid link with ⟨o, k⟩
        rw [ha] at h
        simp at h
        subst h
        simp
    · simp [hk]

theorem scanLinks_settled_of_all (env : ScrapeEnv) (p : UserProfile) (cid : Option Nat)
    (links : List LinkCandidate) (db : List JobListing)
    (h : ∀ l ∈ links, linkSettled env p cid db l) :
    (scanLinks env p cid db links).1 = db := by
  induction links with
  | nil => rfl
  | cons link rest ih =>
    rw [scanLinks_cons,
      processLink_settled env p cid db link (h link (List.mem_cons_self link rest))]
    exact ih fun l hl => h l (List.mem_cons_of_mem link hl)

theorem processLink_url_present (env : ScrapeEnv) (p : UserProfile) (cid : Option Nat)
    (db : List JobListing) (link : LinkCandidate) (row : JobListing)
    (hk : heuristicKeep link = true) (ha : (attemptLink env p cid link).1 = some row) :
    ∃ j ∈ (processLink env p cid db link).1, j.url = link.href := by
  unfold processLink
  simp only [hk, if_true]
  by_cases hd : db.any (fun j => j.url == link.href)
  · obtain ⟨j, hj, hurl⟩ := List.any_eq_true.mp hd
    exact ⟨j, by simpa [hd] using hj, beq_iff_eq.mp hurl⟩
  · simp only [hd, Bool.false_eq_true, if_false]
    rcases hae : attemptLink env p cid link with ⟨o, k⟩
    rw [hae] at ha
    simp at ha
    subst ha
    exact ⟨row, by simp, attemptLink_url env p cid link row (by rw [hae])⟩

theorem scanLinks_all_settled (env : ScrapeEnv) (p : UserProfile) (cid : Option Nat)
    (links : List LinkCandidate) (db : List JobListing) :
    ∀ l ∈ links, linkSettled env p cid (scanLinks env p cid db links).1 l := by
  induction links generalizing db with
  | nil => intro l hl; cases hl
  | cons link rest ih =>
    intro l hl
    rcases List.mem_cons.mp hl with rfl | hl
    · by_cases hk : heuristicKeep l
      · cases ho : (attemptLink env p cid l).1 with
        | none => exact Or.inr (Or.inr ho)
        | some row =>
          obtain ⟨j, hj, hurl⟩ := processLink_url_present env p cid db l row hk ho
          rw [scanLinks_cons]
          exact Or.inr (Or.inl
            ⟨j, scanLinks_mem_preserve env p cid rest _ j hj, hurl⟩)
      · exact Or.inl (by simpa using hk)
    · rw [scanLinks_cons]
      exact ih _ l hl

theorem scanLinks_idem (env : ScrapeEnv) (p : UserProfile) (cid : Option Nat)
    (links : List LinkCandidate) (db : List JobListing) :
    (scanLinks env p cid (scanLinks env p cid db links).1 links).1 =
      (scanLinks env p cid db links).1 :=
  scanLinks_settled_of_all env p cid links _ (scanLinks_all_settled env p cid links db)

theorem scanLinks_nodup (env : ScrapeEnv) (p : UserProfile) (cid : Option Nat)
    (links : List LinkCandidate) (db : List JobListing)
    (h : (db.map JobListing.url).Nodup) :
    ((scanLinks env p cid db links).1.map JobListing.url).Nodup := by
  induction links generalizing db with
  | nil => exact h
  | cons link rest ih =>
    rw [scanLinks_cons]
    apply ih
    rcases processLink_cases env p cid db link with hp | ⟨row, _, hp, hno, hurl⟩
    · rwa [hp]
    · rw [hp]
      simp only [List.map_append, List.map_cons, List.map_nil]
      rw [List.nodup_append]
      refine ⟨h, List.nodup_singleton _, ?_⟩
      intro u hu
      simp only [List.mem_singleton]
      intro hequ
      obtain ⟨j, hj, hju⟩ := List.mem_map.mp hu
      exact hno j hj (by rw [hju, hequ, hurl])

theorem string_toList_append (a b : String) :
    (a ++ b).toList = a.toList ++ b.toList :=
  String.data_append a b

theorem pyStartsWith_error_append (e : String) :
    pyStartsWith ("Error: " ++ e) "Error:" = true := by
  have h1 : ("Error: " ++ e).toList = "Error:".toList ++ (' ' :: e.toList) := by
    rw [string_toList_append]
    have h3 : "Error: ".toList = "Error:".toList ++ [' '] := by decide
    rw [h3, List.append_assoc]
    rfl
  simp only [pyStartsWith, decide_eq_true_eq, h1]
  exact List.prefix_append _ _

theorem string_take_length_le (s : String) (n : Nat) : (s.take n).length ≤ n := by
  rw [String.take_eq]
  show (s.data.take n).length ≤ n
  rw [List.length_take]
  exact Nat.min_le_left _ _

theorem attemptLink_fetch_error (env : ScrapeEnv) (p : UserProfile) (cid : Option Nat)
    (link : LinkCandidate) (e : String) (h : env.fetchPage link.href = .error e) :
    attemptLink env p cid link = (none, 1) := by
  unfold attemptLink
  rw [h]

theorem scrape_company_no_raise (env : ScrapeEnv) (c : Company) (db : List JobListing)
    (h : env.launch = .ok ()) : (scrape_company env c db).raised = none := by
  cases hp : env.pageLoad <;> simp [scrape_company, h, hp]

/-! ## Claims -/

/-- C2 (link-extraction filter): a candidate anchor survives both the
in-page filter and the keep heuristic of `scrape_company` iff its href is at
least 11 characters long and, in addition, the href contains the substring
`job`, or it contains the substring `career` (both case-sensitive), or the
candidate's visible text is strictly longer than 10 characters.  In
particular any href of length 10 or less is discarded regardless of its
text. -/
theorem link_filter_keeps_iff (anchors : List LinkCandidate) (l : LinkCandidate) :
    (l ∈ extractLinks anchors ∧ heuristicKeep l = true) ↔
      (l ∈ anchors ∧ 11 ≤ l.href.length ∧
        ("job".toList <:+: l.href.toList ∨ "career".toList <:+: l.href.toList ∨
          10 < l.text.length)) := by
  have h11 : 11 ≤ l.href.length ↔ 10 < l.href.length := Iff.rfl
  rw [h11, extractLinks, List.mem_filter, heuristicKeep]
  simp [pyIn, and_assoc, or_assoc]

/-- C9 (ConfigurationMissing degradation): when the client getter yields no
client, `analyze_job_match` returns the zero-score dict (`match_score` 0,
empty `missing_skills`) and `analyze_navigation_step` returns the dict whose
`action` is `stop`; neither raises. -/
theorem configuration_missing_defaults (cached : Option Client) (apiKey : Option String)
    (callModel : String → ModelOutcome) (job_text : String) (user_profile : UserProfile)
    (page_state user_preferences : String)
    (h : get_client cached apiKey = none) :
    analyze_job_match (get_client cached apiKey) callModel job_text user_profile =
        Json.obj [("match_score", .num 0), ("reasoning", .str "API Key missing"),
          ("missing_skills", .arr [])] ∧
      analyze_navigation_step (get_client cached apiKey) callModel page_state
          user_preferences =
        Json.obj [("action", .str "stop"), ("selector", .null), ("value", .null)] := by
  rw [h]
  exact ⟨rfl, rfl⟩

/-- Witness for C9: with no cached client and no API key configured, the
getter yields no client and the analyzer returns the zero-score dict. -/
theorem configuration_missing_defaults_witness :
    get_client none none = none ∧
      analyze_job_match (get_client none none) (fun _ => .raises "unused") "jd"
          defaultProfile =
        Json.obj [("match_score", .num 0), ("reasoning", .str "API Key missing"),
          ("missing_skills", .arr [])] :=
  ⟨rfl, (configuration_missing_defaults none none (fun _ => .raises "unused") "jd"
    defaultProfile "ps" "prefs" rfl).1⟩

/-- C3 counterexample: with a configured client, a model reply whose content
is valid JSON but not the expected JSON object — here the JSON array `[]` —
is returned verbatim by `analyze_job_match`; the result is not the
zero-score `Error:` fallback the claim promises for malformed structured
output. -/
theorem analyzer_fallback_counterexample :
    analyze_job_match (some demoClient)
        (fun _ => .returns (.ok (Json.arr []))) "some job text" defaultProfile =
      Json.arr [] ∧
      analyzerFallbackShape (Json.arr []) = false :=
  ⟨rfl, rfl⟩

/-- C3 amended (analyzer failure fallback): if the external model call
raises, or its content is not parseable as JSON at all (`json.loads`
raises), `analyze_job_match` propagates nothing and returns a dict with
`match_score` 0, empty `missing_skills`, and a `reasoning` string starting
with `Error:`.  Content that parses to a non-object JSON value is instead
returned unchanged (see the counterexample). -/
theorem analyzer_fallback_on_failure (c : Client) (callModel : String → ModelOutcome)
    (job_text : String) (user_profile : UserProfile)
    (h : (∃ e, callModel (jobMatchPrompt job_text user_profile) = .raises e) ∨
      (∃ e, callModel (jobMatchPrompt job_text user_profile) = .returns (.error e))) :
    analyzerFallbackShape
      (analyze_job_match (some c) callModel job_text user_profile) = true := by
  have key : ∀ e : String, analyzerFallbackShape
      (Json.obj [("match_score", .num 0), ("reasoning", .str ("Error: " ++ e)),
        ("missing_skills", .arr [])]) = true := by
    intro e
    show pyStartsWith ("Error: " ++ e) "Error:" = true
    exact pyStartsWith_error_append e
  rcases h with ⟨e, he⟩ | ⟨e, he⟩ <;> simp only [analyze_job_match, he] <;> exact key e

/-- Witness for the amended C3: a raising model call yields the `Error:`
fallback shape. -/
theorem analyzer_fallback_on_failure_witness :
    (fun _ : String => ModelOutcome.raises "boom") (jobMatchPrompt "jd" defaultProfile) =
        ModelOutcome.raises "boom" ∧
      analyzerFallbackShape
        (analyze_job_match (some demoClient) (fun _ => ModelOutcome.raises "boom") "jd"
          defaultProfile) = true :=
  ⟨rfl, analyzer_fallback_on_failure demoClient (fun _ => ModelOutcome.raises "boom") "jd"
    defaultProfile (Or.inl ⟨"boom", rfl⟩)⟩

/-- C4 (score bound, violated by the code): `analyze_job_match` returns the
parsed model reply verbatim, with no range check, and `scrape_company`
persists it: a model reply carrying `match_score` 150 produces a persisted
`JobListing` whose `match_score` is 150, outside the documented 0-100
range. -/
theorem score_bound_violated :
    analyze_job_match (some demoClient) (fun _ => .returns (.ok overScoreReply))
        "job description body" defaultProfile = overScoreReply ∧
      (scrape_company overScoreEnv demoCompany []).db.map JobListing.match_score =
        [Json.num 150] ∧
      ¬((150 : Int) ≤ 100) :=
  ⟨rfl, rfl, by decide⟩

/-- C7 (detail-page release, violated by the code): when navigation of the
detail page raises, the per-link `except` is reached before
`job_page.close()` runs, so the per-link step leaves its freshly opened
detail page open.  Here the only candidate passes the heuristic, its fetch
raises, no row is staged, and one detail page is leaked. -/
theorem detail_page_leaked_on_navigation_failure :
    heuristicKeep leakLink = true ∧
      (scrape_company leakEnv demoCompany []).db = [] ∧
      (scrape_company leakEnv demoCompany []).leakedPages = 1 :=
  ⟨rfl, rfl, rfl⟩

/-- C5 (per-link fault isolation): a candidate whose detail fetch raises is
skipped and contributes nothing: the candidate loop over any list containing
it produces exactly the staged rows of the loop with the failing candidate
removed, so every other new candidate is still processed and persisted. -/
theorem fault_isolation_per_link (env : ScrapeEnv) (p : UserProfile) (cid : Option Nat)
    (bad : LinkCandidate)
    (h : (∃ e, env.fetchPage bad.href = .error e) ∨ (attemptLink env p cid bad).1 = none) :
    ∀ (pre post : List LinkCandidate) (db : List JobListing),
      (scanLinks env p cid db (pre ++ bad :: post)).1 =
        (scanLinks env p cid db (pre ++ post)).1 := by
  have hnone : (attemptLink env p cid bad).1 = none := by
    rcases h with ⟨e, he⟩ | h
    · rw [attemptLink_fetch_error env p cid bad e he]
    · exact h
  intro pre
  induction pre with
  | nil =>
    intro post db
    rw [List.nil_append, List.nil_append, scanLinks_cons,
      processLink_settled env p cid db bad (Or.inr (Or.inr hnone))]
  | cons a pre ih =>
    intro post db
    rw [List.cons_append, List.cons_append, scanLinks_cons, scanLinks_cons]
    exact ih post _

/-- Witness for C5: three candidate links where the second detail fetch
raises; the scan stages exactly the listings of links 1 and 3. -/
theorem fault_isolation_per_link_witness :
    faultEnv.fetchPage jobLink2.href = .error "net::ERR_CONNECTION_REFUSED" ∧
      (scanLinks faultEnv defaultProfile (some 1) [] [jobLink1, jobLink2, jobLink3]).1 =
        (scanLinks faultEnv defaultProfile (some 1) [] [jobLink1, jobLink3]).1 ∧
      (scanLinks faultEnv defaultProfile (some 1) [] [jobLink1, jobLink2, jobLink3]).1.map
          JobListing.url =
        ["https://x/job/1", "https://x/job/3"] :=
  ⟨rfl,
    fault_isolation_per_link faultEnv defaultProfile (some 1) jobLink2
      (Or.inl ⟨"net::ERR_CONNECTION_REFUSED", rfl⟩) [jobLink1] [jobLink3] [],
    rfl⟩

/-- C10 (truncation at persistence): every staged `JobListing` takes as
title the candidate's visible text truncated to at most 200 characters,
while its `description_text` is the full fetched page text untruncated;
only the 10,000-character front slice of that text enters the analyzer
prompt. -/
theorem listing_truncation (env : ScrapeEnv) (p : UserProfile) (cid : Option Nat)
    (link : LinkCandidate) (d : String) (row : JobListing) (k : Nat)
    (hf : env.fetchPage link.href = .ok d)
    (ha : attemptLink env p cid link = (some row, k)) :
    row.title = link.text.take 200 ∧ row.title.length ≤ 200 ∧
      row.description_text = some d ∧
      jobMatchPrompt d p =
        jobMatchPromptIntro p ++ d.take 10000 ++ jobMatchPromptOutro ∧
      (d.take 10000).length ≤ 10000 := by
  unfold attemptLink at ha
  rw [hf] at ha
  dsimp only at ha
  cases hA : analyze_job_match env.client env.callModel d p with
  | obj kvs =>
    rw [hA, Prod.mk.injEq] at ha
    obtain ⟨h1, -⟩ := ha
    have h2 := Option.some.inj h1
    have ht : row.title = link.text.take 200 := by rw [← h2]
    have hd : row.description_text = some d := by rw [← h2]
    refine ⟨ht, ?_, hd, rfl, string_take_length_le d 10000⟩
    rw [ht]
    exact string_take_length_le link.text 200
  | null => rw [hA] at ha; simp at ha
  | bool b => rw [hA] at ha; simp at ha
  | num n => rw [hA] at ha; simp at ha
  | str s => rw [hA] at ha; simp at ha
  | arr xs => rw [hA] at ha; simp at ha

/-- Witness for C10 at a concrete staged row. -/
theorem listing_truncation_witness :
    truncEnv.fetchPage truncLink.href = .ok "full body text" ∧
      attemptLink truncEnv defaultProfile (some 1) truncLink = (some truncRow, 0) ∧
      truncRow.title = truncLink.text.take 200 ∧
      truncRow.description_text = some "full body text" :=
  ⟨rfl, rfl,
    (listing_truncation truncEnv defaultProfile (some 1) truncLink "full body text"
      truncRow 0 rfl rfl).1,
    (listing_truncation truncEnv defaultProfile (some 1) truncLink "full body text"
      truncRow 0 rfl rfl).2.2.1⟩

/-- C1 (dedup idempotence): running `scrape_company` twice against an
unchanged page (the same environment, hence the same candidate list, fetch
results and analyses) yields the same final row set as running it once, and
a run preserves URL-uniqueness of the row set: a candidate whose href
exactly matches an existing `JobListing.url` is skipped without creating a
row. -/
theorem dedup_idempotence (env : ScrapeEnv) (c : Company) (db : List JobListing) :
    (scrape_company env (scrape_company env c db).company
        (scrape_company env c db).db).db = (scrape_company env c db).db ∧
      ((db.map JobListing.url).Nodup →
        ((scrape_company env c db).db.map JobListing.url).Nodup) := by
  cases hl : env.launch with
  | error e => simp [scrape_company, hl]
  | ok u =>
    cases hp : env.pageLoad with
    | error e => simp [scrape_company, hl, hp]
    | ok anchors =>
      simp only [scrape_company, hl, hp]
      exact ⟨scanLinks_idem env _ c.id (extractLinks anchors) db,
        fun h => scanLinks_nodup env _ c.id (extractLinks anchors) db h⟩

/-- Witness for C1: a page yielding a duplicated candidate; scanning twice
equals scanning once and the resulting row URLs are pairwise distinct. -/
theorem dedup_idempotence_witness :
    (scrape_company idemEnv (scrape_company idemEnv demoCompany []).company
        (scrape_company idemEnv demoCompany []).db).db =
      (scrape_company idemEnv demoCompany []).db ∧
      ((scrape_company idemEnv demoCompany []).db.map JobListing.url).Nodup :=
  ⟨(dedup_idempotence idemEnv demoCompany []).1,
    (dedup_idempotence idemEnv demoCompany []).2 (by simp)⟩

/-- C8 (re-scan frame property): when the page loads and some persisted row
already carries url `u`, re-running the scan over a page yielding `u` again
creates no new row with url `u` and leaves every existing row in place
unchanged (the prior rows are a prefix of the result), while the company's
`last_scraped_at` is still set to the current, newer, scan time. -/
theorem rescan_frame (env : ScrapeEnv) (c : Company) (db : List JobListing)
    (anchors : List LinkCandidate) (j : JobListing) (u : String) (t0 : Nat)
    (hl : env.launch = .ok ()) (hp : env.pageLoad = .ok anchors)
    (hj : j ∈ db) (hju : j.url = u)
    (ht : c.last_scraped_at = some t0) (hnow : t0 < env.now) :
    db <+: (scrape_company env c db).db ∧
      (∀ r ∈ (scrape_company env c db).db, r.url = u → r ∈ db) ∧
      (scrape_company env c db).company.last_scraped_at = some env.now ∧
      t0 < env.now := by
  simp only [scrape_company, hl, hp]
  refine ⟨scanLinks_db_grows env _ c.id (extractLinks anchors) db, ?_, by trivial, hnow⟩
  intro r hr hru
  rcases scanLinks_new_urls env _ c.id (extractLinks anchors) db r hr with h | hnew
  · exact h
  · exact absurd (hju.trans hru.symm) (hnew j hj)

/-- Witness for C8: the page again yields `https://x/job/1`, already carried
by a persisted row; no second row for that URL appears and the company's
timestamp advances from 3 to 9. -/
theorem rescan_frame_witness :
    existingRow ∈ [existingRow] ∧ demoCompany.last_scraped_at = some 3 ∧
      (3 : Nat) < rescanEnv.now ∧
      [existingRow] <+: (scrape_company rescanEnv demoCompany [existingRow]).db ∧
      (∀ r ∈ (scrape_company rescanEnv demoCompany [existingRow]).db,
        r.url = "https://x/job/1" → r ∈ [existingRow]) ∧
      (scrape_company rescanEnv demoCompany [existingRow]).company.last_scraped_at =
        some 9 := by
  have h := rescan_frame rescanEnv demoCompany [existingRow] [jobLink1] existingRow
    "https://x/job/1" 3 rfl rfl (List.mem_singleton.mpr rfl) rfl rfl (by decide)
  exact ⟨List.mem_singleton.mpr rfl, rfl, by decide, h.1, h.2.1, h.2.2.1⟩

/-- C6 counterexample: two active companies where the first company's
browser launch raises.  `run_daily_scan` propagates the exception and never
invokes the scan of the second company, contrary to the claim that an error
from one company is logged and the loop continues for every remaining
company: the loop body of `run_daily_scan` has no exception handler, and the
browser launch of `scrape_company` happens before its `try`. -/
theorem orchestrator_launch_failure_aborts :
    (run_daily_scan crashEnvOf [] [demoCompany, betaCo]).raised =
        some "BrowserType.launch: executable not found" ∧
      (run_daily_scan crashEnvOf [] [demoCompany, betaCo]).invoked = [demoCompany] :=
  ⟨rfl, rfl⟩

/-- C6 amended (orchestrator fault isolation): provided the browser session
setup succeeds for every company, `run_daily_scan` propagates nothing and
invokes the scan for every active company, whatever failures occur inside
the individual scans — those are caught inside `scrape_company`; only a
browser-setup failure escapes (see the counterexample). -/
theorem orchestrator_isolates_scan_failures (envOf : Company → ScrapeEnv)
    (db : List JobListing) (companies : List Company)
    (h : ∀ c ∈ companies, (envOf c).launch = .ok ()) :
    (run_daily_scan envOf db companies).raised = none ∧
      (run_daily_scan envOf db companies).invoked =
        companies.filter (fun c => c.is_active) := by
  unfold run_daily_scan
  have key : ∀ (cs : List Company) (d : List JobListing),
      (∀ c ∈ cs, (envOf c).launch = .ok ()) →
      (scanLoop envOf d cs).raised = none ∧ (scanLoop envOf d cs).invoked = cs := by
    intro cs
    induction cs with
    | nil => intro d _; exact ⟨rfl, rfl⟩
    | cons c rest ih =>
      intro d hcs
      have hr : (scrape_company (envOf c) c d).raised = none :=
        scrape_company_no_raise (envOf c) c d (hcs c (List.mem_cons_self c rest))
      simp only [scanLoop, hr]
      have hrest := ih (scrape_company (envOf c) c d).db
        (fun x hx => hcs x (List.mem_cons_of_mem c hx))
      exact ⟨hrest.1, by rw [hrest.2]⟩
  exact key _ db (fun c hc => h c (List.mem_filter.mp hc).1)

/-- Witness for the amended C6: every launch succeeds while every page
navigation times out inside the scan; the run raises nothing, scans the
active company and skips the inactive one. -/
theorem orchestrator_isolates_scan_failures_witness :
    (okEnvOf demoCompany).launch = .ok () ∧
      (run_daily_scan okEnvOf [] [demoCompany, inactiveCo]).raised = none ∧
      (run_daily_scan okEnvOf [] [demoCompany, inactiveCo]).invoked = [demoCompany] := by
  have h := orchestrator_isolates_scan_failures okEnvOf [] [demoCompany, inactiveCo]
    (fun c _ => rfl)
  exact ⟨rfl, h.1, h.2.trans (by rfl)⟩

end AutoJob
